import Mathlib

/-!
Shallow embedding of `src/adb_client/src/device/commands/shell.rs`:
the command-execution controller `shell_command` and the interactive
duplex engine `shell` of `ADBMessageDevice`.

The transport is modelled by the list of messages that successive
`read_message` calls return, in order; everything the controller writes
(frames on the transport, bytes on the output sink, flushes) is recorded
as a chronological list of events.  A `read_message` call issued when
the list is exhausted is modelled as a transport failure
(`RustADBError.TransportFailure`): it marks a run in which the loop did
not terminate on its own but kept waiting for further messages.
-/

/-- Protocol command tags of ADB transport messages.  The shell code
only distinguishes `Write`, `Okay` and `Clse`; every other tag falls in
the catch-all branches. -/
inductive MessageCommand where
  | Cnxn
  | Auth
  | Open
  | Okay
  | Clse
  | Write
  | Stls
deriving DecidableEq, Repr

/-- Modelled from the spec: the `Display` implementation of
`MessageCommand` is not part of the unit under study; the spec only
requires a descriptive rendering of the offending tag inside error
messages.  We render the usual ADB wire names. -/
def commandDisplay : MessageCommand → String
  | MessageCommand.Cnxn => "CNXN"
  | MessageCommand.Auth => "AUTH"
  | MessageCommand.Open => "OPEN"
  | MessageCommand.Okay => "OKAY"
  | MessageCommand.Clse => "CLSE"
  | MessageCommand.Write => "WRTE"
  | MessageCommand.Stls => "STLS"

/-- An ADB transport message: header `{command, arg0, arg1}` plus a byte
payload.  Modelled from the spec for the parts outside `shell.rs`:
`ADBTransportMessage::new(command, arg0, arg1, payload)` builds a
message with exactly these header fields (the wire convention binds
`arg0` to the sender's stream id and `arg1` to the recipient's), and
`header().command() / arg0() / arg1()` and `into_payload()` read them
back. -/
structure ADBTransportMessage where
  command : MessageCommand
  arg0 : Nat
  arg1 : Nat
  payload : List Nat
deriving DecidableEq, Repr

/-- Constructor mirroring `ADBTransportMessage::new(command, arg0, arg1,
payload)`. -/
def ADBTransportMessage.new (command : MessageCommand) (arg0 arg1 : Nat)
    (payload : List Nat) : ADBTransportMessage :=
  ⟨command, arg0, arg1, payload⟩

/-- Observable side effects of a controller run, in chronological order:
a frame written on the transport (`write_message`), a payload written to
the output sink (`write_all`), or a sink flush (`flush`). -/
inductive ShellEvent where
  | sendFrame (m : ADBTransportMessage)
  | sinkWrite (payload : List Nat)
  | sinkFlush
deriving DecidableEq, Repr

/-- Kinds of I/O errors the outbound half of `shell` distinguishes
(`std::io::ErrorKind`); only `BrokenPipe` is treated specially. -/
inductive IOErrorKind where
  | BrokenPipe
  | ConnectionReset
  | UnexpectedEof
  | OtherKind
deriving DecidableEq, Repr

/-- Error type of the shell operations (the variants of `RustADBError`
reachable from `shell.rs`).  `TransportFailure` models a failing
`read_message` on the underlying transport — in particular a
`read_message` issued after the modelled inbound message list is
exhausted, i.e. a loop that kept waiting instead of terminating. -/
inductive RustADBError where
  | ADBRequestFailed (msg : String)
  | ADBShellNotSupported
  | IOError (kind : IOErrorKind)
  | TransportFailure
deriving DecidableEq, Repr

/-- A controller outcome: the chronological event trace it produced,
together with its return value. -/
abbrev ShellOutcome := List ShellEvent × Except RustADBError Unit

/-- Prepends events that happened before the rest of a run. -/
def prependEvents (es : List ShellEvent) (rest : ShellOutcome) : ShellOutcome :=
  (es ++ rest.1, rest.2)

/-- The message-handling loop of `shell_command` (shell.rs lines 28-81).
Arguments: the stream's `local_id` and `remote_id`, the inbound messages
that successive `read_message` calls return, and the current value of
the `have_unconfirmed_writes` flag (initially `false`). -/
def shellCommandLoop (localId remoteId : Nat) :
    List ADBTransportMessage → Bool → ShellOutcome
  | [], _ => ([], Except.error RustADBError.TransportFailure)
  | msg :: rest, pending =>
    match msg.command with
    | MessageCommand.Write =>
      prependEvents
        [ShellEvent.sendFrame
            (ADBTransportMessage.new MessageCommand.Okay localId remoteId []),
         ShellEvent.sinkWrite msg.payload]
        (shellCommandLoop localId remoteId rest true)
    | MessageCommand.Okay =>
      shellCommandLoop localId remoteId rest pending
    | MessageCommand.Clse =>
      if msg.arg1 = localId ∧ msg.arg0 = remoteId then
        prependEvents
          [ShellEvent.sendFrame
              (ADBTransportMessage.new MessageCommand.Clse localId remoteId [])]
          (if pending then
            shellCommandLoop localId remoteId rest false
          else
            ([], Except.ok ()))
      else
        shellCommandLoop localId remoteId rest pending
    | c =>
      ([], Except.error
        (RustADBError.ADBRequestFailed ("unexpected command: " ++ commandDisplay c)))

/-- The controller of `shell_command` (shell.rs lines 12-84): checks the
session-establishment response, then runs the message loop with the
`have_unconfirmed_writes` flag initialized to `false`.  `response` is
the message returned by `open_session`. -/
def shell_command (response : ADBTransportMessage) (localId remoteId : Nat)
    (inbound : List ADBTransportMessage) : ShellOutcome :=
  if response.command ≠ MessageCommand.Okay then
    ([], Except.error
      (RustADBError.ADBRequestFailed
        ("wrong command " ++ commandDisplay response.command)))
  else
    shellCommandLoop localId remoteId inbound false

/-- The inbound half of the interactive engine: the reading-thread loop
of `shell` (shell.rs lines 101-119).  For every message it first sends
an `Okay` acknowledgment, then dispatches on the command tag.  The loop
has no successful exit of its own: it ends only on a transport failure
or on an unexpected command. -/
def shellReadLoop (localId remoteId : Nat) :
    List ADBTransportMessage → ShellOutcome
  | [] => ([], Except.error RustADBError.TransportFailure)
  | msg :: rest =>
    prependEvents
      [ShellEvent.sendFrame
          (ADBTransportMessage.new MessageCommand.Okay localId remoteId [])]
      (match msg.command with
       | MessageCommand.Write =>
         prependEvents
           [ShellEvent.sinkWrite msg.payload, ShellEvent.sinkFlush]
           (shellReadLoop localId remoteId rest)
       | MessageCommand.Okay =>
         shellReadLoop localId remoteId rest
       | _ => ([], Except.error RustADBError.ADBShellNotSupported))

/-- Modelled from the spec: `ShellMessageWriter` (not under `src/`)
frames each byte chunk as an outbound data frame addressed to
`(local_id, remote_id)` and transmits it over its transport handle. -/
def ShellMessageWriter.writeChunk (localId remoteId : Nat)
    (chunk : List Nat) : ADBTransportMessage :=
  ADBTransportMessage.new MessageCommand.Write localId remoteId chunk

/-- Modelled from the spec: `std::io::copy(reader, shell_writer)` pumps
the reader's chunks through the writer one by one until the reader is
exhausted (success) or a write fails (that error is returned and no
further chunk is transmitted).  `chunks` is the sequence of reads the
input source yields; `writeFail i` tells whether the i-th write call
fails and with which `ErrorKind`. -/
def copyToShellWriter (localId remoteId : Nat)
    (writeFail : Nat → Option IOErrorKind) :
    List (List Nat) → Nat → List ShellEvent × Except IOErrorKind Unit
  | [], _ => ([], Except.ok ())
  | c :: rest, i =>
    match writeFail i with
    | none =>
      let tail := copyToShellWriter localId remoteId writeFail rest (i + 1)
      (ShellEvent.sendFrame (ShellMessageWriter.writeChunk localId remoteId c)
        :: tail.1, tail.2)
    | some k => ([], Except.error k)

/-- The interactive engine `shell` (shell.rs lines 88-133), outbound
half and overall result.  `openResult` is the result of
`open_session(b"shell:\0")`; its payload message is never inspected.
The inbound half runs detached on a spawned thread (`shellReadLoop`
above) and is never awaited, so the engine's trace and result are those
of the outbound copy, with a `BrokenPipe` copy failure converted to
success and every other copy failure wrapped as `IOError`. -/
def shell (openResult : Except RustADBError ADBTransportMessage)
    (localId remoteId : Nat) (inputChunks : List (List Nat))
    (writeFail : Nat → Option IOErrorKind) : ShellOutcome :=
  match openResult with
  | Except.error e => ([], Except.error e)
  | Except.ok _ =>
    let copied := copyToShellWriter localId remoteId writeFail inputChunks 0
    match copied.2 with
    | Except.ok _ => (copied.1, Except.ok ())
    | Except.error k =>
      match k with
      | IOErrorKind.BrokenPipe => (copied.1, Except.ok ())
      | _ => (copied.1, Except.error (RustADBError.IOError k))

/-- Frames written on the transport during a run, in order. -/
def sentFrames (evs : List ShellEvent) : List ADBTransportMessage :=
  evs.filterMap fun e =>
    match e with
    | ShellEvent.sendFrame m => some m
    | _ => none

/-- Payloads written to the output sink during a run, in order. -/
def sinkWrites (evs : List ShellEvent) : List (List Nat) :=
  evs.filterMap fun e =>
    match e with
    | ShellEvent.sinkWrite p => some p
    | _ => none

/-- Number of frames with a given command tag written on the transport
during a run. -/
def countCommand (c : MessageCommand) (evs : List ShellEvent) : Nat :=
  (sentFrames evs).countP fun m => m.command == c

deriving instance DecidableEq for Except

/-- Characterization of the `shell_command` loop on a run of data frames
followed by one matching close frame: every data frame is acknowledged
and forwarded, the close is answered with a close frame, and the loop
breaks there exactly when no data frame has been processed since the
flag was last cleared (`ds = []` and `pending = false`); otherwise it
keeps reading. -/
theorem shellCommandLoop_data_then_close (l r : Nat) (ds : List (List Nat))
    (pending : Bool) :
    shellCommandLoop l r
        (ds.map (fun p => ADBTransportMessage.new MessageCommand.Write r l p) ++
          [ADBTransportMessage.new MessageCommand.Clse r l []]) pending =
      ((ds.map fun p =>
          [ShellEvent.sendFrame (ADBTransportMessage.new MessageCommand.Okay l r []),
           ShellEvent.sinkWrite p]).flatten ++
        [ShellEvent.sendFrame (ADBTransportMessage.new MessageCommand.Clse l r [])],
       if ds.isEmpty && !pending then Except.ok ()
       else Except.error RustADBError.TransportFailure) := by
  induction ds generalizing pending with
  | nil => cases pending <;> simp [shellCommandLoop, prependEvents, ADBTransportMessage.new]
  | cons d rest ih =>
    have h := ih true
    simp [shellCommandLoop, prependEvents, ADBTransportMessage.new] at h ⊢
    simp [h]

/-- A failure-free `std::io::copy` through the shell writer transmits
one data frame per input chunk and succeeds. -/
theorem copyToShellWriter_ok (l r : Nat) (chunks : List (List Nat)) (i : Nat) :
    copyToShellWriter l r (fun _ => none) chunks i =
      (chunks.map fun c =>
        ShellEvent.sendFrame (ShellMessageWriter.writeChunk l r c),
       Except.ok ()) := by
  induction chunks generalizing i <;> simp_all [copyToShellWriter]

/-- C1 (counterexample): on the inbound sequence data([1]), close,
data([2]), close — all with matching ids for the stream
`local_id = 7`, `remote_id = 42` — `shell_command`'s loop does NOT
terminate successfully after the second close, contrary to the claim:
the second data frame set `have_unconfirmed_writes` again, so the
second close only resets the flag and the loop issues another
`read_message` (modelled as a transport failure on the exhausted
inbound stream). -/
theorem c1_counterexample :
    (shellCommandLoop 7 42
        [ADBTransportMessage.new MessageCommand.Write 42 7 [1],
         ADBTransportMessage.new MessageCommand.Clse 42 7 [],
         ADBTransportMessage.new MessageCommand.Write 42 7 [2],
         ADBTransportMessage.new MessageCommand.Clse 42 7 []] false).2 ≠
      Except.ok () := by decide

/-- C1 (amended): on the sequence data, close, data, close (all with
matching ids), the controller emits exactly 2 close frames and forwards
exactly 2 payloads in order — the full event trace is ack, payload 1,
close, ack, payload 2, close — but it terminates after neither close:
after the second close it is again blocked reading the transport,
because each close was preceded by fresh data that set the
pending-writes flag. -/
theorem c1_double_close_continues (l r : Nat) (p1 p2 : List Nat) :
    shellCommandLoop l r
        [ADBTransportMessage.new MessageCommand.Write r l p1,
         ADBTransportMessage.new MessageCommand.Clse r l [],
         ADBTransportMessage.new MessageCommand.Write r l p2,
         ADBTransportMessage.new MessageCommand.Clse r l []] false =
      ([ShellEvent.sendFrame (ADBTransportMessage.new MessageCommand.Okay l r []),
        ShellEvent.sinkWrite p1,
        ShellEvent.sendFrame (ADBTransportMessage.new MessageCommand.Clse l r []),
        ShellEvent.sendFrame (ADBTransportMessage.new MessageCommand.Okay l r []),
        ShellEvent.sinkWrite p2,
        ShellEvent.sendFrame (ADBTransportMessage.new MessageCommand.Clse l r [])],
       Except.error RustADBError.TransportFailure) := by
  simp [shellCommandLoop, prependEvents, ADBTransportMessage.new]

/-- C2 (counterexample): a data frame whose id pair (arg0 = 99,
arg1 = 98) does not match the stream (`local_id = 1`, `remote_id = 2`)
is NOT a no-op: the loop acknowledges it on the transport and writes
its payload to the sink, because the `Write` arm of `shell_command`
performs no id check at all. -/
theorem c2_counterexample :
    (shellCommandLoop 1 2
        [ADBTransportMessage.new MessageCommand.Write 99 98 [5]] false).1 =
      [ShellEvent.sendFrame (ADBTransportMessage.new MessageCommand.Okay 1 2 []),
       ShellEvent.sinkWrite [5]] ∧
    sentFrames (shellCommandLoop 1 2
        [ADBTransportMessage.new MessageCommand.Write 99 98 [5]] false).1 ≠ [] := by
  decide

/-- C2 (amended): acknowledgment messages (whatever their ids) and close
messages whose id pair does not match the stream are pure no-ops for
`shell_command`: processing such a message head is identical to running
the loop on the remaining messages with the same flag — no frame
emitted, no sink write, no state change, no termination.  Data frames,
by contrast, are processed regardless of their id pair. -/
theorem c2_foreign_noop (l r : Nat) (m : ADBTransportMessage)
    (rest : List ADBTransportMessage) (pending : Bool)
    (h : m.command = MessageCommand.Okay ∨
      (m.command = MessageCommand.Clse ∧ ¬(m.arg1 = l ∧ m.arg0 = r))) :
    shellCommandLoop l r (m :: rest) pending = shellCommandLoop l r rest pending := by
  obtain ⟨c, a0, a1, p⟩ := m
  rcases h with h | ⟨h, hid⟩ <;> subst h <;> simp_all [shellCommandLoop]

/-- Witness for `c2_foreign_noop`: a close frame with foreign ids
(99, 98) on the stream (1, 2) satisfies the hypothesis, and processing
it first equals skipping it. -/
theorem c2_witness :
    ((ADBTransportMessage.new MessageCommand.Clse 99 98 []).command = MessageCommand.Okay ∨
      ((ADBTransportMessage.new MessageCommand.Clse 99 98 []).command = MessageCommand.Clse ∧
        ¬((ADBTransportMessage.new MessageCommand.Clse 99 98 []).arg1 = 1 ∧
          (ADBTransportMessage.new MessageCommand.Clse 99 98 []).arg0 = 2))) ∧
    shellCommandLoop 1 2 [ADBTransportMessage.new MessageCommand.Clse 99 98 []] false =
      shellCommandLoop 1 2 [] false :=
  ⟨Or.inr ⟨rfl, by decide⟩,
   c2_foreign_noop 1 2 _ [] false (Or.inr ⟨rfl, by decide⟩)⟩

/-- C3 (counterexample): one data frame followed by one matching close
(N = 1) does NOT make `shell_command`'s loop terminate with success, as
the claim asserts for every N ≥ 0: the data frame set the
pending-writes flag, so the close only resets it and the loop issues
another read (modelled as a transport failure on the exhausted inbound
stream). -/
theorem c3_counterexample :
    (shellCommandLoop 1 2
        [ADBTransportMessage.new MessageCommand.Write 2 1 [7],
         ADBTransportMessage.new MessageCommand.Clse 2 1 []] false).2 ≠
      Except.ok () := by decide

/-- C3 (amended): on N data frames followed by one matching close,
`shell_command`'s loop emits exactly N acknowledgment frames, writes
all N payloads to the sink in arrival order, and emits exactly one
close frame; but it terminates with success only when N = 0 — for
N ≥ 1 the close merely resets the pending-writes flag and the loop
keeps waiting for further messages. -/
theorem c3_data_then_close_behavior (l r : Nat) (ds : List (List Nat)) :
    countCommand MessageCommand.Okay
        (shellCommandLoop l r
          (ds.map (fun p => ADBTransportMessage.new MessageCommand.Write r l p) ++
            [ADBTransportMessage.new MessageCommand.Clse r l []]) false).1 = ds.length ∧
    sinkWrites
        (shellCommandLoop l r
          (ds.map (fun p => ADBTransportMessage.new MessageCommand.Write r l p) ++
            [ADBTransportMessage.new MessageCommand.Clse r l []]) false).1 = ds ∧
    countCommand MessageCommand.Clse
        (shellCommandLoop l r
          (ds.map (fun p => ADBTransportMessage.new MessageCommand.Write r l p) ++
            [ADBTransportMessage.new MessageCommand.Clse r l []]) false).1 = 1 ∧
    (shellCommandLoop l r
          (ds.map (fun p => ADBTransportMessage.new MessageCommand.Write r l p) ++
            [ADBTransportMessage.new MessageCommand.Clse r l []]) false).2 =
      (if ds.isEmpty then Except.ok ()
       else Except.error RustADBError.TransportFailure) := by
  rw [shellCommandLoop_data_then_close]
  refine ⟨?_, ?_, ?_, by simp⟩ <;>
    induction ds <;>
      simp_all [countCommand, sentFrames, sinkWrites, ADBTransportMessage.new,
        List.countP_cons]

/-- C4: whenever `shell_command`'s loop receives a close frame with
`arg1 = local_id` and `arg0 = remote_id`, it always writes one close
frame back on the transport; then, if the pending-writes flag is false
it terminates immediately with success, and if the flag is true it
resets it to false and keeps looping on the remaining messages. -/
theorem c4_matching_close (l r : Nat) (p : List Nat)
    (rest : List ADBTransportMessage) (pending : Bool) :
    shellCommandLoop l r
        (ADBTransportMessage.new MessageCommand.Clse r l p :: rest) pending =
      prependEvents
        [ShellEvent.sendFrame (ADBTransportMessage.new MessageCommand.Clse l r [])]
        (if pending then shellCommandLoop l r rest false else ([], Except.ok ())) := by
  simp [shellCommandLoop, ADBTransportMessage.new]

/-- C5: in the inbound half of the interactive engine, every received
message is first answered with exactly one acknowledgment frame
`(Okay, arg0 = local_id, arg1 = remote_id)`, regardless of its command
tag; then a data frame's payload is written to the sink and the sink
flushed, an acknowledgment is ignored, and any other command — close
included — ends the half with `ADBShellNotSupported`. -/
theorem c5_inbound_half (l r : Nat) (m : ADBTransportMessage)
    (rest : List ADBTransportMessage) :
    shellReadLoop l r (m :: rest) =
      prependEvents
        [ShellEvent.sendFrame (ADBTransportMessage.new MessageCommand.Okay l r [])]
        (if m.command = MessageCommand.Write then
           prependEvents [ShellEvent.sinkWrite m.payload, ShellEvent.sinkFlush]
             (shellReadLoop l r rest)
         else if m.command = MessageCommand.Okay then
           shellReadLoop l r rest
         else ([], Except.error RustADBError.ADBShellNotSupported)) := by
  obtain ⟨c, a0, a1, p⟩ := m
  cases c <;> simp [shellReadLoop]

/-- C6: for every data frame, the acknowledgment frame is written to
the transport strictly before the payload reaches the output sink: in
`shell_command`'s loop the trace is ack, then sink write; in the
interactive inbound half it is ack, then sink write, then flush. -/
theorem c6_ack_before_payload :
    (∀ (l r a0 a1 : Nat) (p : List Nat) (rest : List ADBTransportMessage)
        (pending : Bool),
      shellCommandLoop l r
          (ADBTransportMessage.mk MessageCommand.Write a0 a1 p :: rest) pending =
        prependEvents
          [ShellEvent.sendFrame (ADBTransportMessage.new MessageCommand.Okay l r []),
           ShellEvent.sinkWrite p]
          (shellCommandLoop l r rest true)) ∧
    (∀ (l r a0 a1 : Nat) (p : List Nat) (rest : List ADBTransportMessage),
      shellReadLoop l r
          (ADBTransportMessage.mk MessageCommand.Write a0 a1 p :: rest) =
        prependEvents
          [ShellEvent.sendFrame (ADBTransportMessage.new MessageCommand.Okay l r []),
           ShellEvent.sinkWrite p, ShellEvent.sinkFlush]
          (shellReadLoop l r rest)) := by
  constructor <;> intros <;> simp [shellCommandLoop, shellReadLoop, prependEvents]

/-- C7: the interactive engine's result is the outbound half's outcome.
When every write succeeds, the input chunks are all framed and sent and
the engine returns success; when the first write fails, no data frame
is sent and the engine returns success exactly when the failure kind is
`BrokenPipe`, otherwise that error wrapped as `IOError`; when
`open_session` itself fails, the engine aborts with that error.  The
inbound half is never awaited: `shell`'s outcome does not depend on it. -/
theorem c7_outbound_outcome :
    (∀ (resp : ADBTransportMessage) (l r : Nat) (chunks : List (List Nat)),
      shell (Except.ok resp) l r chunks (fun _ => none) =
        ((chunks.map fun c =>
           ShellEvent.sendFrame (ShellMessageWriter.writeChunk l r c)),
         Except.ok ())) ∧
    (∀ (resp : ADBTransportMessage) (l r : Nat) (c : List Nat)
        (cs : List (List Nat)) (k : IOErrorKind),
      shell (Except.ok resp) l r (c :: cs) (fun _ => some k) =
        ([], if k = IOErrorKind.BrokenPipe then Except.ok ()
             else Except.error (RustADBError.IOError k))) ∧
    (∀ (e : RustADBError) (l r : Nat) (chunks : List (List Nat))
        (wf : Nat → Option IOErrorKind),
      shell (Except.error e) l r chunks wf = ([], Except.error e)) := by
  refine ⟨?_, ?_, ?_⟩
  · intro resp l r chunks
    simp [shell, copyToShellWriter_ok]
  · intro resp l r c cs k
    cases k <;> simp [shell, copyToShellWriter]
  · intro e l r chunks wf
    simp [shell]

/-- C8: a message whose command tag is outside the recognized set makes
each controller fail immediately with its typed error and process no
further inbound frames: `shell_command`'s loop returns
`ADBRequestFailed` having emitted nothing for this message, and the
interactive inbound half returns `ADBShellNotSupported` right after the
unconditional acknowledgment it sends for every message. -/
theorem c8_unexpected_command :
    (∀ (l r : Nat) (m : ADBTransportMessage) (rest : List ADBTransportMessage)
        (pending : Bool),
      m.command ≠ MessageCommand.Write → m.command ≠ MessageCommand.Okay →
      m.command ≠ MessageCommand.Clse →
      shellCommandLoop l r (m :: rest) pending =
        ([], Except.error (RustADBError.ADBRequestFailed
          ("unexpected command: " ++ commandDisplay m.command)))) ∧
    (∀ (l r : Nat) (m : ADBTransportMessage) (rest : List ADBTransportMessage),
      m.command ≠ MessageCommand.Write → m.command ≠ MessageCommand.Okay →
      m.command ≠ MessageCommand.Clse →
      shellReadLoop l r (m :: rest) =
        ([ShellEvent.sendFrame (ADBTransportMessage.new MessageCommand.Okay l r [])],
         Except.error RustADBError.ADBShellNotSupported)) := by
  constructor
  · intro l r m rest pending h1 h2 h3
    obtain ⟨c, a0, a1, p⟩ := m
    cases c <;> simp_all [shellCommandLoop]
  · intro l r m rest h1 h2 h3
    obtain ⟨c, a0, a1, p⟩ := m
    cases c <;> simp_all [shellReadLoop, prependEvents]

/-- Witness for `c8_unexpected_command`: an `Open` frame is outside the
recognized set and makes both controllers fail as stated. -/
theorem c8_witness :
    ((ADBTransportMessage.new MessageCommand.Open 0 0 []).command ≠ MessageCommand.Write ∧
     (ADBTransportMessage.new MessageCommand.Open 0 0 []).command ≠ MessageCommand.Okay ∧
     (ADBTransportMessage.new MessageCommand.Open 0 0 []).command ≠ MessageCommand.Clse) ∧
    shellCommandLoop 1 2 [ADBTransportMessage.new MessageCommand.Open 0 0 []] false =
      ([], Except.error (RustADBError.ADBRequestFailed
        ("unexpected command: " ++ commandDisplay MessageCommand.Open))) ∧
    shellReadLoop 1 2 [ADBTransportMessage.new MessageCommand.Open 0 0 []] =
      ([ShellEvent.sendFrame (ADBTransportMessage.new MessageCommand.Okay 1 2 [])],
       Except.error RustADBError.ADBShellNotSupported) :=
  ⟨⟨by decide, by decide, by decide⟩,
   c8_unexpected_command.1 1 2 _ [] false (by decide) (by decide) (by decide),
   c8_unexpected_command.2 1 2 _ [] (by decide) (by decide) (by decide)⟩

/-- C9: on the stream `local_id = 7`, `remote_id = 42`, a close frame
with `arg0 = 42`, `arg1 = 7` received with no prior data makes
`shell_command` emit exactly one close reply with `arg0 = 7`,
`arg1 = 42` and return success. -/
theorem c9_round_trip :
    shell_command (ADBTransportMessage.new MessageCommand.Okay 0 0 []) 7 42
        [ADBTransportMessage.new MessageCommand.Clse 42 7 []] =
      ([ShellEvent.sendFrame (ADBTransportMessage.new MessageCommand.Clse 7 42 [])],
       Except.ok ()) := by decide

/-- C10: the interactive `shell` never inspects the session-open
response — its outcome is the same for any two `Ok` responses — and
aborts exactly when `open_session` itself errors; `shell_command`, by
contrast, fails with `ADBRequestFailed` whenever the open response's
command is not `Okay`. -/
theorem c10_open_validation :
    (∀ (resp resp2 : ADBTransportMessage) (l r : Nat) (chunks : List (List Nat))
        (wf : Nat → Option IOErrorKind),
      shell (Except.ok resp) l r chunks wf = shell (Except.ok resp2) l r chunks wf) ∧
    (∀ (e : RustADBError) (l r : Nat) (chunks : List (List Nat))
        (wf : Nat → Option IOErrorKind),
      shell (Except.error e) l r chunks wf = ([], Except.error e)) ∧
    (∀ (resp : ADBTransportMessage) (l r : Nat)
        (inbound : List ADBTransportMessage),
      resp.command ≠ MessageCommand.Okay →
      shell_command resp l r inbound =
        ([], Except.error (RustADBError.ADBRequestFailed
          ("wrong command " ++ commandDisplay resp.command)))) := by
  refine ⟨fun _ _ _ _ _ _ => rfl, fun _ _ _ _ _ => rfl, ?_⟩
  intro resp l r inbound h
  simp [shell_command, h]

/-- Witness for `c10_open_validation`: a `Clse` open response is not
`Okay` and makes `shell_command` fail as stated. -/
theorem c10_witness :
    (ADBTransportMessage.new MessageCommand.Clse 0 0 []).command ≠ MessageCommand.Okay ∧
    shell_command (ADBTransportMessage.new MessageCommand.Clse 0 0 []) 1 2 [] =
      ([], Except.error (RustADBError.ADBRequestFailed
        ("wrong command " ++ commandDisplay MessageCommand.Clse))) :=
  ⟨by decide, c10_open_validation.2.2 _ 1 2 [] (by decide)⟩
